import Mathlib

/-!
Shallow embedding of the KairyxAI safety-constrained decision flow.

Sources:
- `types.ts` (segments, `SafetyConstraints`, `GrowthAction` status values)
- `constants.tsx` (`DEFAULT_SAFETY_CONSTRAINTS`)
- `services/gemini.ts` (`GeminiService.analyzePlayerData`, `GeminiService.normalizeRawData`,
  the JSON `responseSchema` sent to the model)
- `App.tsx` (`handleActionTriggered`, the `executedActions` / `constraints` state)
- `PlayerInspector.tsx` (`handleRunAIAnalysis`)

The generative-model call is an external collaborator; its parsed reply (the result
of `JSON.parse` inside a try/catch) is passed in as an `Option` value, `none`
standing for the catch branch (unparseable text). Timestamps are epoch
milliseconds; the ISO-8601 UTC strings produced by `toISOString()` compare
in the same order as the underlying instants.
-/

/-- `PlayerSegment` enum from `types.ts`. -/
inductive PlayerSegment
  | WHALE
  | DOLPHIN
  | MINNOW
  | FREE_TO_PLAY
  | AT_RISK
  | CHURNED
deriving DecidableEq, Repr, BEq

/-- `SafetyConstraints` interface from `types.ts`. The numeric fields are JS
numbers; the per-week count is modelled as `Int` (nothing in the code keeps it
nonnegative) and the money fields as `Rat`. -/
structure SafetyConstraints where
  maxActionsPerPlayerPerWeek : Int
  maxRewardValueUSD : Rat
  blacklistedSegments : List PlayerSegment
  complianceEnabled : Bool
  budgetCapDaily : Rat
deriving DecidableEq, Repr

/-- `DEFAULT_SAFETY_CONSTRAINTS` from `constants.tsx`. -/
def DEFAULT_SAFETY_CONSTRAINTS : SafetyConstraints :=
  { maxActionsPerPlayerPerWeek := 1
    maxRewardValueUSD := 25
    blacklistedSegments := [PlayerSegment.CHURNED]
    complianceEnabled := true
    budgetCapDaily := 1000 }

/-- The fields of `Player` (`types.ts`) that the decision flow reads directly
(`player.id`, `player.name`, `player.segment`); the remaining fields are only
serialized into the model prompt and never inspected by the code. -/
structure Player where
  id : String
  name : String
  segment : PlayerSegment
deriving DecidableEq, Repr

/-- The action-type enum of the `responseSchema` in `gemini.ts` (also the
`GrowthAction.type` union of `types.ts`, plus `NONE`). -/
inductive ActionType
  | PUSH_NOTIFICATION
  | IN_GAME_OFFER
  | LEVEL_ADJUSTMENT
  | RESOURCE_GIFT
  | NONE
deriving DecidableEq, Repr, BEq

/-- `GrowthAction.status` union from `types.ts`. The code in
`handleRunAIAnalysis` only ever writes `EXECUTED`. -/
inductive ActionStatus
  | EXECUTED
  | PENDING
  | FAILED
deriving DecidableEq, Repr, BEq

/-- `reasoningChain` object of the `responseSchema` in `gemini.ts`. -/
structure ReasoningChain where
  riskOpportunity : String
  priorityAlignment : String
  designerVoiceLogic : String
  safetyAudit : String
  expectedLongTermImpact : String
deriving DecidableEq, Repr

/-- `recommendedAction` object of the `responseSchema` in `gemini.ts`. All of
its properties are optional there (the object carries no `required` list);
the ones the code dereferences unconditionally are kept plain.
`estimatedValueUSD` is not declared in the schema, but `JSON.parse` performs
no validation and the object spread in `handleRunAIAnalysis` forwards every
field present in the model's JSON, so a value field is modelled as optional. -/
structure RecommendedAction where
  type : ActionType
  description : String
  playerFacingCopy : String
  primaryReason : Option String
  behavioralSignals : List String
  expectedOutcome : Option String
  estimatedValueUSD : Option Rat
deriving DecidableEq, Repr

/-- The top-level object of the `responseSchema` in `gemini.ts`
(`required`: `reasoningChain`, `actionNeeded`, `recommendedAction`,
`confidence`). A missing `actionNeeded` is JS-falsy, which coincides with
`false` here. -/
structure AnalysisResult where
  reasoningChain : ReasoningChain
  actionNeeded : Bool
  recommendedAction : RecommendedAction
  staySilentReasoning : Option String
  constraintViolationMitigated : Option Bool
  violationDetails : Option String
  confidence : Rat
deriving DecidableEq, Repr

/-- The object `handleRunAIAnalysis` passes to `onActionTriggered`: the spread
of `result.recommendedAction` plus `playerId`, `playerName`, `timestamp`,
`confidence`, `reasoning`, `status`. These objects are what `App.tsx` stores
in `executedActions` (the action ledger). -/
structure ExecutedAction where
  type : ActionType
  description : String
  playerFacingCopy : String
  primaryReason : Option String
  behavioralSignals : List String
  expectedOutcome : Option String
  estimatedValueUSD : Option Rat
  playerId : String
  playerName : String
  timestamp : Nat
  confidence : Rat
  reasoning : String
  status : ActionStatus
deriving DecidableEq, Repr

/-- The `App` component state from `App.tsx`: `activeTab`, `executedActions`,
`constraints`. -/
structure AppState where
  activeTab : String
  executedActions : List ExecutedAction
  constraints : SafetyConstraints
deriving DecidableEq, Repr

/-- `handleActionTriggered` from `App.tsx`:
`setExecutedActions(prev => [action, ...prev]); setActiveTab('actions')`. -/
def handleActionTriggered (s : AppState) (action : ExecutedAction) : AppState :=
  { s with executedActions := action :: s.executedActions, activeTab := "actions" }

/-- JS `a || b` on an optional string (`undefined` and `""` are falsy). Used
for `response.text || "\x7b\x7d"` and
`primaryReason || reasoningChain.priorityAlignment`. -/
def jsOrString (a : Option String) (b : String) : String :=
  match a with
  | none => b
  | some t => if t = "" then b else t

/-- The argument handed to `JSON.parse` in both gemini.ts methods:
`response.text || "\x7b\x7d"`. -/
def textOrEmptyObject (responseText : Option String) : String :=
  jsOrString responseText "\x7b\x7d"

/-- The parse-and-catch tail of `GeminiService.analyzePlayerData`
(`gemini.ts`): `try return JSON.parse(response.text || "\x7b\x7d") catch return null`.
`parse` stands for `JSON.parse`, returning `none` exactly when it throws. -/
def analyzePlayerData (parse : String → Option AnalysisResult)
    (responseText : Option String) : Option AnalysisResult :=
  parse (textOrEmptyObject responseText)

/-- Outcome of `GeminiService.normalizeRawData`: either the parsed JSON value,
or the literal error object `\x7b error: "Failed to normalize", raw: rawData \x7d`. -/
inductive NormalizeOutcome (α : Type)
  | parsed (value : α)
  | failed (error : String) (raw : String)
deriving DecidableEq, Repr

/-- `GeminiService.normalizeRawData` (`gemini.ts`):
`try return JSON.parse(response.text || "\x7b\x7d") catch return \x7b error: "Failed to normalize", raw: rawData \x7d`. -/
def normalizeRawData (parse : String → Option α) (rawData : String)
    (responseText : Option String) : NormalizeOutcome α :=
  match parse (textOrEmptyObject responseText) with
  | some v => NormalizeOutcome.parsed v
  | none => NormalizeOutcome.failed "Failed to normalize" rawData

/-- The `{ ...result, player }` object stored by `setCurrentAnalysis` in
`PlayerInspector.tsx`. -/
structure CurrentAnalysis where
  result : AnalysisResult
  player : Player
deriving DecidableEq, Repr

/-- The `PlayerInspector` component state together with the `App` state it can
update through the `onActionTriggered` prop. -/
structure InspectorState where
  app : AppState
  analyzingPlayerId : Option String
  currentAnalysis : Option CurrentAnalysis
deriving DecidableEq, Repr

/-- The action object built inside `handleRunAIAnalysis`
(`PlayerInspector.tsx`): `{ ...result.recommendedAction, playerId, playerName,
timestamp, confidence, reasoning, status: 'EXECUTED' }`. -/
def buildTriggeredAction (result : AnalysisResult) (player : Player)
    (now : Nat) : ExecutedAction :=
  { type := result.recommendedAction.type
    description := result.recommendedAction.description
    playerFacingCopy := result.recommendedAction.playerFacingCopy
    primaryReason := result.recommendedAction.primaryReason
    behavioralSignals := result.recommendedAction.behavioralSignals
    expectedOutcome := result.recommendedAction.expectedOutcome
    estimatedValueUSD := result.recommendedAction.estimatedValueUSD
    playerId := player.id
    playerName := player.name
    timestamp := now
    confidence := result.confidence
    reasoning := jsOrString result.recommendedAction.primaryReason
      result.reasoningChain.priorityAlignment
    status := ActionStatus.EXECUTED }

/-- `handleRunAIAnalysis` from `PlayerInspector.tsx`. `oracleResult` is the
value returned by `geminiService.analyzePlayerData` (`null` = `none`). The
handler sets `analyzingPlayerId`, clears `currentAnalysis`, then — only if the
result is non-null — displays it, and — only if `result.actionNeeded` — calls
`onActionTriggered` (i.e. `handleActionTriggered` in `App.tsx`); the `finally`
clause clears `analyzingPlayerId` again. No field of `constraints` is read
anywhere on this path: the constraints are only serialized into the prompt. -/
def handleRunAIAnalysis (s : InspectorState) (player : Player)
    (oracleResult : Option AnalysisResult) (now : Nat) : InspectorState :=
  let s1 : InspectorState := { s with currentAnalysis := none }
  let s2 : InspectorState :=
    match oracleResult with
    | none => s1
    | some result =>
        let s1a : InspectorState :=
          { s1 with currentAnalysis := some { result := result, player := player } }
        if result.actionNeeded then
          { s1a with
              app := handleActionTriggered s1a.app (buildTriggeredAction result player now) }
        else s1a
  { s2 with analyzingPlayerId := none }

/-- Milliseconds per UTC day. -/
def MS_PER_DAY : Nat := 86400000

/-- Membership in the trailing window of `windowDays` days ending at `now`,
open at the far edge (an entry exactly `windowDays` old is excluded), as the
spec's Frequency Guard defines the window. -/
def inTrailingWindow (now windowDays ts : Nat) : Bool :=
  decide (now < ts + windowDays * MS_PER_DAY) && decide (ts ≤ now)

/-- Count of EXECUTED ledger entries for a player in the trailing 7-day
window: the metric of the spec's frequency invariant. -/
def countExecutedInWindow (entries : List ExecutedAction) (pid : String)
    (now : Nat) : Nat :=
  (entries.filter (fun e =>
    e.playerId == pid && e.status == ActionStatus.EXECUTED
      && inTrailingWindow now 7 e.timestamp)).length

/-- UTC calendar day index of an epoch-millisecond timestamp. -/
def utcDay (ts : Nat) : Nat := ts / MS_PER_DAY

/-- Sum of `estimatedValueUSD` over EXECUTED ledger entries on a given UTC
day (an absent value counts as 0): the metric of the spec's budget
invariant. -/
def executedValueOnDay (entries : List ExecutedAction) (day : Nat) : Rat :=
  (entries.filter (fun e =>
    e.status == ActionStatus.EXECUTED && utcDay e.timestamp == day)).foldl
    (fun acc e => acc + e.estimatedValueUSD.getD 0) 0

/-- Modelled from the spec: validity of a `SafetyConstraints` value. The
repository declares the type (`types.ts`) and stores a value of it in `App`
state, but contains no Policy Store update operation at all (`setConstraints`
is never invoked after initialization). Per the spec's data model,
`maxActionsPerPlayerPerWeek`, `maxRewardValueUSD` and the daily budget cap
must be ≥ 0. -/
def validSafetyConstraints (c : SafetyConstraints) : Bool :=
  decide (0 ≤ c.maxActionsPerPlayerPerWeek)
    && decide (0 ≤ c.maxRewardValueUSD)
    && decide (0 ≤ c.budgetCapDaily)

/-- Modelled from the spec: `Policy Store.Update`. A ConfigurationInvalid
snapshot (e.g. negative caps) is rejected at update time, never silently
clamped. -/
def policyStoreUpdate (proposed : SafetyConstraints) :
    Except String SafetyConstraints :=
  if validSafetyConstraints proposed then Except.ok proposed
  else Except.error "ConfigurationInvalid"

/-- Modelled from the spec: the stored snapshot after an update attempt — the
proposed value when accepted, the unchanged current value when rejected. -/
def policyStoreApply (current proposed : SafetyConstraints) : SafetyConstraints :=
  match policyStoreUpdate proposed with
  | Except.ok c => c
  | Except.error _ => current

/-- The ledger order the spec requires of `executedActions`: most recent
first, i.e. pairwise nonincreasing timestamps. -/
def ledgerSortedDesc (l : List ExecutedAction) : Prop :=
  l.Pairwise (fun a b => b.timestamp ≤ a.timestamp)

/-- A sequence of `handleActionTriggered` calls folded over the `App` state. -/
def appendActions (s : AppState) (actions : List ExecutedAction) : AppState :=
  actions.foldl handleActionTriggered s

/-! Concrete fixtures used by the claim theorems. -/

/-- A player in the blacklisted `CHURNED` segment. -/
def churnedPlayer : Player :=
  { id := "p_9001", name := "Casey T.", segment := PlayerSegment.CHURNED }

/-- The first mock player of `constants.tsx` (`WHALE` segment). -/
def whalePlayer : Player :=
  { id := "p_8921", name := "Alex G.", segment := PlayerSegment.WHALE }

/-- The third mock player of `constants.tsx` (`DOLPHIN` segment). -/
def dolphinPlayer : Player :=
  { id := "p_5543", name := "Jordan L.", segment := PlayerSegment.DOLPHIN }

/-- A nominal reasoning chain for oracle replies. -/
def chainFix : ReasoningChain :=
  { riskOpportunity := "churn risk", priorityAlignment := "retention first",
    designerVoiceLogic := "designer tone", safetyAudit := "checked",
    expectedLongTermImpact := "retention lift" }

/-- A `RESOURCE_GIFT` recommendation carrying an estimated value of `v` USD. -/
def giftRec (v : Rat) : RecommendedAction :=
  { type := ActionType.RESOURCE_GIFT, description := "resource gift",
    playerFacingCopy := "a gift for you", primaryReason := some "re-engage",
    behavioralSignals := [], expectedOutcome := none, estimatedValueUSD := some v }

/-- An oracle reply recommending a gift of `v` USD (`actionNeeded = true`). -/
def engageResult (v : Rat) : AnalysisResult :=
  { reasoningChain := chainFix, actionNeeded := true, recommendedAction := giftRec v,
    staySilentReasoning := none, constraintViolationMitigated := none,
    violationDetails := none, confidence := 90 }

/-- An oracle reply recommending silence (`actionNeeded = false`). -/
def silentResult : AnalysisResult :=
  { reasoningChain := chainFix, actionNeeded := false, recommendedAction := giftRec 0,
    staySilentReasoning := some "preserve trust", constraintViolationMitigated := none,
    violationDetails := none, confidence := 80 }

/-- The initial `App` state: empty ledger, default constraints. -/
def initialAppState : AppState :=
  { activeTab := "players", executedActions := [], constraints := DEFAULT_SAFETY_CONSTRAINTS }

/-- The initial combined state. -/
def initialInspectorState : InspectorState :=
  { app := initialAppState, analyzingPlayerId := none, currentAnalysis := none }

/-- Two consecutive analyses of the same player, one millisecond apart, both
with an oracle reply recommending a 10 USD gift. -/
def s_afterTwo : InspectorState :=
  handleRunAIAnalysis
    (handleRunAIAnalysis initialInspectorState whalePlayer (some (engageResult 10)) 0)
    whalePlayer (some (engageResult 10)) 1

/-- Two consecutive analyses of the same player on the same UTC day, both
with an oracle reply recommending a 600 USD gift. -/
def s_budget : InspectorState :=
  handleRunAIAnalysis
    (handleRunAIAnalysis initialInspectorState whalePlayer (some (engageResult 600)) 0)
    whalePlayer (some (engageResult 600)) 1

/-- The same constraints with the compliance toggle off. -/
def bypassConstraints : SafetyConstraints :=
  { DEFAULT_SAFETY_CONSTRAINTS with complianceEnabled := false }

/-- Initial state under `bypassConstraints`. -/
def bypassState : InspectorState :=
  { initialInspectorState with
      app := { initialAppState with constraints := bypassConstraints } }

/-- A proposed constraints snapshot with a negative reward cap. -/
def invalidProposed : SafetyConstraints :=
  { DEFAULT_SAFETY_CONSTRAINTS with maxRewardValueUSD := -5 }

/-- A ledger entry with timestamp `t` (the other fields fixed). -/
def ledgerEntryAt (t : Nat) : ExecutedAction :=
  { type := ActionType.RESOURCE_GIFT, description := "d", playerFacingCopy := "c",
    primaryReason := none, behavioralSignals := [], expectedOutcome := none,
    estimatedValueUSD := none, playerId := "p_8921", playerName := "Alex G.",
    timestamp := t, confidence := 50, reasoning := "r", status := ActionStatus.EXECUTED }

/-- An `App` state whose ledger holds one entry recorded at time 5. -/
def ledgerStateAt5 : AppState :=
  { activeTab := "actions", executedActions := [ledgerEntryAt 5],
    constraints := DEFAULT_SAFETY_CONSTRAINTS }

/-- A `JSON.parse` stand-in that always throws (unparseable model text). -/
def failingParse : String → Option AnalysisResult := fun _ => none

/-- A `JSON.parse` stand-in for `normalizeRawData` that always throws. -/
def failingParseNat : String → Option Nat := fun _ => none

/-! Theorems for the claims. -/

/-- Helper for C8: folding `handleActionTriggered` over a list of actions
prepends the actions, reversed, to the existing ledger. -/
lemma appendActions_executedActions (actions : List ExecutedAction) (s : AppState) :
    (appendActions s actions).executedActions = actions.reverse ++ s.executedActions := by
  induction actions generalizing s with
  | nil => rfl
  | cons a as ih =>
      have h0 : appendActions s (a :: as) = appendActions (handleActionTriggered s a) as := rfl
      rw [h0, ih]
      simp [handleActionTriggered]

/-- C1: the spec claims no proposed action whose player's segment is
blacklisted is ever recorded EXECUTED. The code performs no segment check
(constraints are only serialized into the model prompt): under the default
constraints, which blacklist `CHURNED`, one analysis of a `CHURNED` player
whose oracle reply sets `actionNeeded = true` records that player's action in
the executed-actions ledger with status EXECUTED. -/
theorem c1_blacklisted_segment_recorded_executed :
    churnedPlayer.segment ∈ DEFAULT_SAFETY_CONSTRAINTS.blacklistedSegments ∧
    ((handleRunAIAnalysis initialInspectorState churnedPlayer
        (some (engageResult 10)) 0).app.executedActions.map
      (fun e => (e.playerId, e.status))) = [(churnedPlayer.id, ActionStatus.EXECUTED)] := by
  exact ⟨by simp [churnedPlayer, DEFAULT_SAFETY_CONSTRAINTS], by decide⟩

/-- C2: the spec claims at most `maxActionsPerPlayerPerWeek` EXECUTED entries
per player in any trailing 7-day window. The code keeps no frequency count:
two analyses of the same player one millisecond apart, both with engaging
oracle replies, leave 2 EXECUTED entries in the 7-day window against the
default cap of 1. -/
theorem c2_frequency_cap_exceeded :
    DEFAULT_SAFETY_CONSTRAINTS.maxActionsPerPlayerPerWeek = 1 ∧
    ¬ ((countExecutedInWindow s_afterTwo.app.executedActions whalePlayer.id 1 : Int)
        ≤ DEFAULT_SAFETY_CONSTRAINTS.maxActionsPerPlayerPerWeek) := by
  exact ⟨rfl, by decide⟩

/-- C3: the spec claims the sum of `estimatedValueUSD` over EXECUTED entries
on one UTC day never exceeds the daily budget cap. The code keeps no budget
accounting at all: two analyses on day 0, each whose oracle reply carries a
600 USD gift, record 1200 USD of EXECUTED value against the default 1000 USD
cap. -/
theorem c3_daily_budget_cap_exceeded :
    DEFAULT_SAFETY_CONSTRAINTS.budgetCapDaily = 1000 ∧
    executedValueOnDay s_budget.app.executedActions 0 = 1200 ∧
    ¬ (executedValueOnDay s_budget.app.executedActions 0
        ≤ DEFAULT_SAFETY_CONSTRAINTS.budgetCapDaily) := by
  have hval : executedValueOnDay s_budget.app.executedActions 0 = 1200 := by
    simp [executedValueOnDay, s_budget, handleRunAIAnalysis, handleActionTriggered,
      buildTriggeredAction, engageResult, giftRec, initialInspectorState, initialAppState,
      utcDay, List.filter, List.foldl]
    norm_num
  refine ⟨rfl, hval, ?_⟩
  rw [hval]
  decide

/-- C4: the spec claims a proposal whose `estimatedValueUSD` exceeds
`maxRewardValueUSD` is BLOCKED with reason "reward_value_exceeded" and not
executed. The code never compares the value against the cap: a 30 USD gift
against the default 25 USD cap is recorded EXECUTED. -/
theorem c4_reward_value_cap_not_enforced :
    DEFAULT_SAFETY_CONSTRAINTS.maxRewardValueUSD < 30 ∧
    ((handleRunAIAnalysis initialInspectorState dolphinPlayer
        (some (engageResult 30)) 0).app.executedActions.map
      (fun e => (e.status, e.estimatedValueUSD))) = [(ActionStatus.EXECUTED, some 30)] := by
  exact ⟨by decide, by decide⟩

/-- C5: the spec claims that with `complianceEnabled = false` every decision
returns EXECUTED immediately, tagged `bypassed = true` in the ledger. The
code never reads `complianceEnabled` on the decision path and no ledger field
`bypassed` exists: with compliance disabled and an oracle reply recommending
silence, nothing is recorded EXECUTED at all. -/
theorem c5_compliance_bypass_not_recorded :
    bypassState.app.constraints.complianceEnabled = false ∧
    (handleRunAIAnalysis bypassState whalePlayer (some silentResult) 0).app.executedActions = [] :=
  ⟨rfl, rfl⟩

/-- C6: the spec claims every decision evaluation appends exactly one ledger
entry, also for non-executing outcomes. The code appends only when the parsed
result is non-null and `actionNeeded` is true: a decision whose oracle reply
recommends silence appends nothing (ledger length stays 0 instead of
becoming 1). -/
theorem c6_silent_outcome_appends_no_entry :
    initialInspectorState.app.executedActions.length = 0 ∧
    (handleRunAIAnalysis initialInspectorState whalePlayer
        (some silentResult) 0).app.executedActions.length = 0 :=
  ⟨rfl, rfl⟩

/-- C7: a constraints update whose values are invalid (e.g. a negative cap)
is rejected — the stored `SafetyConstraints` remain unchanged; the invalid
values are neither accepted nor clamped. Proved against the spec-modelled
Policy Store update (the repository contains no update operation). -/
theorem c7_invalid_constraints_update_rejected (current proposed : SafetyConstraints)
    (h : validSafetyConstraints proposed = false) :
    policyStoreUpdate proposed = Except.error "ConfigurationInvalid" ∧
    policyStoreApply current proposed = current := by
  simp [policyStoreUpdate, policyStoreApply, h]

/-- Witness for C7 at a concrete invalid snapshot (`maxRewardValueUSD = -5`). -/
theorem c7_invalid_constraints_update_rejected_witness :
    policyStoreUpdate invalidProposed = Except.error "ConfigurationInvalid" ∧
    policyStoreApply DEFAULT_SAFETY_CONSTRAINTS invalidProposed = DEFAULT_SAFETY_CONSTRAINTS :=
  c7_invalid_constraints_update_rejected DEFAULT_SAFETY_CONSTRAINTS invalidProposed (by decide)

/-- C8: recording an action leaves every previously recorded ledger entry
unchanged (the new entry is prepended to the untouched previous list), and
after any sequence of chronologically ordered appends onto a most-recent-first
ledger, the ledger is still ordered by timestamp with the most recent entry
first. -/
theorem c8_ledger_immutable_and_most_recent_first (s : AppState)
    (actions : List ExecutedAction)
    (hprev : ledgerSortedDesc s.executedActions)
    (hchron : actions.Pairwise (fun a b => a.timestamp ≤ b.timestamp))
    (hnewer : ∀ a ∈ actions, ∀ e ∈ s.executedActions, e.timestamp ≤ a.timestamp) :
    (∀ a : ExecutedAction,
      (handleActionTriggered s a).executedActions = a :: s.executedActions) ∧
    ledgerSortedDesc (appendActions s actions).executedActions := by
  refine ⟨fun a => rfl, ?_⟩
  show ((appendActions s actions).executedActions).Pairwise _
  rw [appendActions_executedActions, List.pairwise_append]
  refine ⟨?_, hprev, ?_⟩
  · rw [List.pairwise_reverse]
    exact hchron
  · intro a ha b hb
    exact hnewer a (List.mem_reverse.mp ha) b hb

/-- Witness for C8: a ledger holding an entry at time 5, then appends at
times 6 and 7. -/
theorem c8_ledger_immutable_and_most_recent_first_witness :
    (handleActionTriggered ledgerStateAt5 (ledgerEntryAt 6)).executedActions
        = ledgerEntryAt 6 :: ledgerStateAt5.executedActions ∧
    ledgerSortedDesc
      (appendActions ledgerStateAt5 [ledgerEntryAt 6, ledgerEntryAt 7]).executedActions := by
  have h := c8_ledger_immutable_and_most_recent_first ledgerStateAt5
    [ledgerEntryAt 6, ledgerEntryAt 7]
    (by unfold ledgerSortedDesc; decide) (by decide) (by decide)
  exact ⟨h.1 (ledgerEntryAt 6), h.2⟩

/-- C9: if the oracle response text is not parseable JSON, `analyzePlayerData`
returns null rather than throwing, and the decision evaluation changes no
state: the `App` state (so the executed-actions ledger and the active tab) is
untouched, no action is triggered, and no analysis result is displayed
(`currentAnalysis` ends up null). -/
theorem c9_unparseable_response_changes_no_state
    (parse : String → Option AnalysisResult) (responseText : Option String)
    (s : InspectorState) (player : Player) (now : Nat)
    (h : parse (textOrEmptyObject responseText) = none) :
    analyzePlayerData parse responseText = none ∧
    (handleRunAIAnalysis s player (analyzePlayerData parse responseText) now).app = s.app ∧
    (handleRunAIAnalysis s player (analyzePlayerData parse responseText) now).currentAnalysis
      = none := by
  have hn : analyzePlayerData parse responseText = none := h
  refine ⟨hn, ?_, ?_⟩ <;> rw [hn] <;> rfl

/-- Witness for C9 with a parse that always throws, on the initial state. -/
theorem c9_unparseable_response_changes_no_state_witness :
    analyzePlayerData failingParse (some "not json") = none ∧
    (handleRunAIAnalysis initialInspectorState whalePlayer
        (analyzePlayerData failingParse (some "not json")) 0).app = initialInspectorState.app ∧
    (handleRunAIAnalysis initialInspectorState whalePlayer
        (analyzePlayerData failingParse (some "not json")) 0).currentAnalysis = none :=
  c9_unparseable_response_changes_no_state failingParse (some "not json")
    initialInspectorState whalePlayer 0 rfl

/-- C10: `normalizeRawData` is total over model-output parse failures: when
the response text is not parseable JSON it returns the error object
`failed "Failed to normalize" rawData` — the original input string handed
back verbatim — instead of throwing. -/
theorem c10_normalize_failure_returns_raw_verbatim {α : Type}
    (parse : String → Option α) (rawData : String) (responseText : Option String)
    (h : parse (textOrEmptyObject responseText) = none) :
    normalizeRawData parse rawData responseText
      = NormalizeOutcome.failed "Failed to normalize" rawData := by
  simp [normalizeRawData, h]

/-- Witness for C10 on the backend raw sample of `constants.tsx`. -/
theorem c10_normalize_failure_returns_raw_verbatim_witness :
    normalizeRawData failingParseNat "UID:5543|SESS:44|LVL:28|BAL:450|TS:2024-05-20T11:00:00"
        (some "not json")
      = NormalizeOutcome.failed "Failed to normalize"
          "UID:5543|SESS:44|LVL:28|BAL:450|TS:2024-05-20T11:00:00" :=
  c10_normalize_failure_returns_raw_verbatim failingParseNat
    "UID:5543|SESS:44|LVL:28|BAL:450|TS:2024-05-20T11:00:00" (some "not json") rfl
